import Mathlib

/-!
Verification development for the MCP terminal server
(src/servers/terminal_server/terminal_server.py).

The Python module is embedded shallowly:

* JSON values are the inductive type Json; Python dict.get is Json.get and
  Python truthiness of a JSON value is Json.pyTruthy.
* An HTTP response is a GhResponse (status code plus parsed JSON body).
  HTTP requests issued by the file publisher are modelled as total
  functions from the request data to a response (an HttpEnv), i.e. every
  issued request yields a response whose status code may signal an error;
  for github_delete_repository the two requests are additionally allowed
  to raise a transport exception (Except String GhResponse), which the
  source catches in its generic except-branch.
* Reading a local file (open + read, which raises on missing or
  non-UTF-8 files) is an Except String String: Except.error e stands for
  a raised exception whose str() is e.
* The local filesystem under a directory is an FSTree; os.walk top-down
  order (all regular files of a directory first, then the subdirectories
  in listing order, recursively) is FSTree.walk.
* Exception texts produced by requests.raise_for_status and by KeyError
  are abstracted by the definite strings httpStatusErrorText / keyErrorText;
  no claim depends on their exact contents.
* base64.b64encode(content.encode()).decode() is b64encode, a concrete
  RFC 4648 encoder over the UTF-8 bytes of the string.
-/

/-- Parsed JSON values, as returned by response.json(). -/
inductive Json where
  | null
  | bool (b : Bool)
  | num (n : Int)
  | str (s : String)
  | arr (elems : List Json)
  | obj (fields : List (String × Json))


/-- Python dict.get(key): the value at the key of an object, none when the
key is absent or the value is not an object. -/
def Json.get : Json → String → Option Json
  | .obj fields, key => fields.lookup key
  | _, _ => none

/-- Python truthiness of a JSON value (None, False, 0, "", [], \x7b\x7d are falsy). -/
def Json.pyTruthy : Json → Bool
  | .null => false
  | .bool b => b
  | .num n => n != 0
  | .str s => s != ""
  | .arr elems => !elems.isEmpty
  | .obj fields => !fields.isEmpty

/-- The base64 alphabet of RFC 4648. -/
def base64Alphabet : List Char :=
  "ABCDEFGHIJKLMNOPQRSTUVWXYZabcdefghijklmnopqrstuvwxyz0123456789+/".toList

/-- The base64 digit for a 6-bit value. -/
def b64Digit (n : Nat) : Char := base64Alphabet.getD n 'A'

/-- Standard base64 of a byte list, with padding, three bytes at a time. -/
def b64EncodeBytes : List Nat → List Char
  | [] => []
  | [a] => [b64Digit (a / 4), b64Digit (a % 4 * 16), '=', '=']
  | [a, b] => [b64Digit (a / 4), b64Digit (a % 4 * 16 + b / 16), b64Digit (b % 16 * 4), '=']
  | a :: b :: c :: rest =>
      b64Digit (a / 4) :: b64Digit (a % 4 * 16 + b / 16) ::
      b64Digit (b % 16 * 4 + c / 64) :: b64Digit (c % 64) :: b64EncodeBytes rest

/-- base64.b64encode(s.encode()).decode(): base64 over the UTF-8 bytes of s. -/
def b64encode (s : String) : String :=
  String.mk (b64EncodeBytes (s.toUTF8.toList.map (fun b => b.toNat)))

/-- An HTTP response: status code and parsed JSON body. -/
structure GhResponse where
  status_code : Nat
  body : Json


/-- requests.Response.raise_for_status raises exactly for status codes in
[400, 600). -/
def raisesForStatus (code : Nat) : Bool := 400 ≤ code && code < 600

/-- The JSON payload of the contents PUT built by _push_single_file:
message, base64 content, branch, and an optional sha field. -/
structure PutPayload where
  message : String
  content : String
  branch : String
  sha : Option Json


/-- The HTTP world seen by the file publisher: every GET of a URL and every
PUT of a URL with a JSON payload yields a response. -/
structure HttpEnv where
  get : String → GhResponse
  put : String → PutPayload → GhResponse

/-- The contents URL built in _push_single_file (line 129 of the source). -/
def contentsUrl (owner repo path : String) : String :=
  "https://api.github.com/repos/" ++ owner ++ "/" ++ repo ++ "/contents/" ++ path

/-- github_path.replace(chr 92, chr 47) of source line 128: the pattern and
the replacement are single characters, so str.replace is exactly the
substitution of every backslash character by a forward slash. -/
def normalizeGithubPath (p : String) : String :=
  String.mk (p.data.map (fun c => if c = '\\' then '/' else c))

/-- Source line 133: sha = get_res.json().get("sha") if get_res.status_code
== 200 else None. -/
def shaLookup (get_res : GhResponse) : Option Json :=
  if get_res.status_code = 200 then get_res.body.get "sha" else none

/-- Source lines 136-142: the payload dict, whose sha key is set only when
the looked-up sha value is truthy. -/
def mkPayload (commit_message content branch : String) (sha : Option Json) : PutPayload :=
  { message := commit_message
    content := b64encode content
    branch := branch
    sha := match sha with
           | some v => if v.pyTruthy then some v else none
           | none => none }

/-- The payload _push_single_file PUTs for a successfully read file: the
sha lookup GETs the contents URL of the normalized path and the payload is
built from its response. -/
def pushPayloadFor (http : HttpEnv) (owner repo content github_path commit_message branch : String) :
    PutPayload :=
  mkPayload commit_message content branch
    (shaLookup (http.get (contentsUrl owner repo (normalizeGithubPath github_path))))

/-- Abstraction of str(requests.exceptions.HTTPError) raised by
raise_for_status. -/
def httpStatusErrorText (code : Nat) (url : String) : String :=
  "HTTPError " ++ toString code ++ " for url: " ++ url

/-- Abstraction of str(KeyError/TypeError) raised when the PUT response body
has no content.html_url. -/
def keyErrorText : String := "KeyError: html_url"

/-- A per-file record returned by _push_single_file: either
\x7bstatus: "success", path, html_url\x7d or
\x7bstatus: "error", path, error, details\x7d. -/
inductive PushResult where
  | success (path : String) (html_url : Json)
  | error (path : String) (error : String) (details : Option Json)


/-- The status field of a Push Result. -/
def PushResult.statusStr : PushResult → String
  | .success _ _ => "success"
  | .error _ _ _ => "error"

/-- The path field of a Push Result. -/
def PushResult.pathOf : PushResult → String
  | .success p _ => p
  | .error p _ _ => p

/-- put_res.json()["content"]["html_url"]: defined only when the body is an
object with a content object carrying html_url; otherwise the indexing
raises, which the except-branch of the source turns into an error record. -/
def htmlUrlOf (body : Json) : Option Json :=
  (body.get "content").bind (fun c => c.get "html_url")

/-- _push_single_file (source lines 118-160). rd is the outcome of reading
the local file: Except.error e is a raised open/read exception with text e,
caught before the path is normalized, so the error record keeps the raw
github_path and a null details field. After a successful read the path is
normalized, the sha is looked up, the payload is PUT; raise_for_status and
a missing content.html_url both produce an error record whose details field
is the parsed PUT response body. -/
def pushSingleFile (http : HttpEnv) (owner repo : String) (rd : Except String String)
    (github_path commit_message branch : String) : PushResult :=
  match rd with
  | .error e => .error github_path e none
  | .ok content =>
    let gp := normalizeGithubPath github_path
    let url := contentsUrl owner repo gp
    let payload := pushPayloadFor http owner repo content github_path commit_message branch
    let put_res := http.put url payload
    if raisesForStatus put_res.status_code then
      .error gp (httpStatusErrorText put_res.status_code url) (some put_res.body)
    else
      match htmlUrlOf put_res.body with
      | some u => .success gp u
      | none => .error gp keyErrorText (some put_res.body)

/-- A local filesystem node: a regular file (carrying the outcome of
reading it as UTF-8 text) or a directory with its entries in os.listdir
order. -/
inductive FSTree where
  | file (rd : Except String String)
  | dir (entries : List (String × FSTree))

/-- The regular files directly inside a directory listing, in listing
order, each as a one-component relative path with its read outcome
(the files element of one os.walk triple). -/
def filesOf : List (String × FSTree) → List (List String × Except String String)
  | [] => []
  | (n, FSTree.file rd) :: rest => ([n], rd) :: filesOf rest
  | (_, FSTree.dir _) :: rest => filesOf rest

/-- The files found by descending into the subdirectories of a listing in
order, each path prefixed with the subdirectory name. Together with
filesOf this is exactly the file order of top-down os.walk: all files of a
directory first, then each subdirectory in listing order, recursively. -/
def dirsWalk : List (String × FSTree) → List (List String × Except String String)
  | [] => []
  | (_, FSTree.file _) :: rest => dirsWalk rest
  | (n, FSTree.dir es) :: rest =>
      (filesOf es ++ dirsWalk es).map (fun pr => (n :: pr.1, pr.2)) ++ dirsWalk rest

/-- The files below a node in os.walk top-down discovery order, as
relative component paths paired with read outcomes. -/
def FSTree.walk : FSTree → List (List String × Except String String)
  | .file _ => []
  | .dir es => filesOf es ++ dirsWalk es

/-- The number of regular files below a listing, at any nesting depth. -/
def fileCountEntries : List (String × FSTree) → Nat
  | [] => 0
  | (_, FSTree.file _) :: rest => 1 + fileCountEntries rest
  | (_, FSTree.dir es) :: rest => fileCountEntries es + fileCountEntries rest

/-- The number of regular files below a node, at any nesting depth. -/
def FSTree.fileCount : FSTree → Nat
  | .file _ => 1
  | .dir es => fileCountEntries es

/-- Components joined with the platform path separator, as
os.path.join builds paths incrementally during the walk. -/
def joinedPath (sep : String) : List String → String
  | [] => ""
  | [c] => c
  | c :: rest => c ++ sep ++ joinedPath sep rest

/-- The aggregated report of github_push_file (source lines 111-116). -/
structure PushReport where
  status : String
  success_count : Nat
  error_count : Nat
  details : List PushResult

/-- Source lines 111-116: status "complete", counts of success and error
records, and the per-file results in order. -/
def mkReport (results : List PushResult) : PushReport :=
  { status := "complete"
    success_count := results.countP (fun r => r.statusStr == "success")
    error_count := results.countP (fun r => r.statusStr == "error")
    details := results }

/-- The return value of github_push_file: either the top-level
\x7berror: ...\x7d object or a Push Report. -/
inductive PushOut where
  | errorObj (error : String)
  | report (rep : PushReport)

/-- The world seen by one github_push_file invocation: the HTTP
environment, the platform path separator (os.sep), the PROJECT_ROOT string
(os.path.dirname of the workspace), and the filesystem node found at the
resolved path os.path.join(PROJECT_ROOT, project_path) - none when that
path does not exist. The model assumes project_path is a plain relative
path in platform separators, so joining and os.path.relpath are prefix
concatenation and prefix removal. -/
structure PushEnv where
  http : HttpEnv
  sep : String
  projectRoot : String
  node : Option FSTree

/-- github_push_file (source lines 79-116). A missing path returns the
top-level error object. A single file is pushed with project_path itself
as the remote path. A directory is walked; each file is pushed with remote
path os.path.relpath(file, PROJECT_ROOT) = project_path joined with the
components below the directory. -/
def github_push_file (env : PushEnv) (owner repo project_path commit_message branch : String) :
    PushOut :=
  let abs_local_path := env.projectRoot ++ env.sep ++ project_path
  match env.node with
  | none => .errorObj ("Path not found: " ++ abs_local_path)
  | some (FSTree.file rd) =>
      .report (mkReport [pushSingleFile env.http owner repo rd project_path commit_message branch])
  | some (FSTree.dir es) =>
      .report (mkReport ((FSTree.dir es).walk.map (fun pr =>
        pushSingleFile env.http owner repo pr.2
          (joinedPath env.sep (project_path :: pr.1)) commit_message branch)))

/-- The captured streams of a completed subprocess.run (text mode). -/
structure CmdOutcome where
  stdout : String
  stderr : String

/-- run_command (source lines 21-35). runner models subprocess.run: an
exception with text e, or a completed process with captured streams.
Python "result.stdout or result.stderr" is stdout when non-empty, else
stderr; the except-branch returns str(e). The function is total: no
outcome of the runner escapes as an exception. -/
def run_command (runner : String → Except String CmdOutcome) (command : String) : String :=
  match runner command with
  | .ok result => if result.stdout ≠ "" then result.stdout else result.stderr
  | .error e => e

/-- The world seen by one github_delete_repository invocation: the
existence-check GET and the DELETE each either raise a transport
exception (Except.error, with str(e) text) or return a response. -/
structure DelEnv where
  check : Except String GhResponse
  del : Except String GhResponse

/-- The return value of github_delete_repository, one constructor per dict
shape in the source: \x7bstatus, message\x7d on 204,
\x7berror, details: json\x7d on a non-204 delete response,
\x7berror, message, documentation_url\x7d from the HTTPError handler, and
\x7berror: "Unexpected error", details: str\x7d from the generic handler. -/
inductive DeleteResult where
  | success (status message : String)
  | deleteFailed (error : String) (details : Json)
  | httpError (error : String) (message : Option Json) (documentation_url : Option Json)
  | unexpected (error details : String)

/-- github_delete_repository (source lines 180-221). The existence check
calls raise_for_status, whose HTTPError is caught and mapped to the
httpError shape from the response body; the DELETE has no
raise_for_status, so a non-204 delete status returns the deleteFailed
shape with the parsed delete body; transport exceptions of either request
fall to the generic handler. -/
def github_delete_repository (env : DelEnv) (owner repo : String) : DeleteResult :=
  match env.check with
  | .error e => .unexpected "Unexpected error" e
  | .ok check_res =>
    if raisesForStatus check_res.status_code then
      .httpError ("HTTP Error " ++ toString check_res.status_code)
        (check_res.body.get "message") (check_res.body.get "documentation_url")
    else
      match env.del with
      | .error e => .unexpected "Unexpected error" e
      | .ok delete_res =>
        if delete_res.status_code = 204 then
          .success "success" ("Repository " ++ owner ++ "/" ++ repo ++ " deleted successfully")
        else
          .deleteFailed ("Failed to delete repository (HTTP " ++ toString delete_res.status_code ++ ")")
            delete_res.body

/-- Sample HTTP world in which the contents GET finds the file with a sha. -/
def httpShaEnv : HttpEnv :=
  { get := fun _ => { status_code := 200, body := Json.obj [("sha", Json.str "oldsha")] }
    put := fun _ _ =>
      { status_code := 201
        body := Json.obj [("content", Json.obj [("html_url", Json.str "https://example.test/f")])] } }

/-- Sample HTTP world in which the contents GET answers 404. -/
def httpAbsentEnv : HttpEnv :=
  { get := fun _ => { status_code := 404, body := Json.obj [("message", Json.str "Not Found")] }
    put := fun _ _ =>
      { status_code := 201
        body := Json.obj [("content", Json.obj [("html_url", Json.str "https://example.test/f")])] } }

/-- Sample HTTP world in which the contents GET answers 200 with an empty
sha value. -/
def httpEmptyShaEnv : HttpEnv :=
  { get := fun _ => { status_code := 200, body := Json.obj [("sha", Json.str "")] }
    put := fun _ _ =>
      { status_code := 201
        body := Json.obj [("content", Json.obj [("html_url", Json.str "https://example.test/f")])] } }

/-- Sample HTTP world in which the PUT is rejected with 422. -/
def httpPutFailEnv : HttpEnv :=
  { get := fun _ => { status_code := 404, body := Json.obj [] }
    put := fun _ _ => { status_code := 422, body := Json.obj [("message", Json.str "Invalid request")] } }

/-- Sample directory listing: a.txt, then sub/b.txt (unreadable) and
sub/c.txt. -/
def sampleEntries : List (String × FSTree) :=
  [("a.txt", FSTree.file (Except.ok "hello")),
   ("sub", FSTree.dir [("b.txt", FSTree.file (Except.error "boom")),
                       ("c.txt", FSTree.file (Except.ok "world"))])]

/-- Sample push world whose resolved path is the sample directory. -/
def dirPushEnv : PushEnv :=
  { http := httpShaEnv, sep := "\\", projectRoot := "C:\\root", node := some (FSTree.dir sampleEntries) }

/-- Sample push world whose resolved path is a single readable file. -/
def filePushEnv : PushEnv :=
  { http := httpShaEnv, sep := "\\", projectRoot := "C:\\root", node := some (FSTree.file (Except.ok "hi")) }

/-- Sample push world whose resolved path does not exist. -/
def missingPushEnv : PushEnv :=
  { http := httpShaEnv, sep := "\\", projectRoot := "C:\\root", node := none }

/-- Sample delete world: the repository exists but the DELETE answers 403. -/
def delFailEnv : DelEnv :=
  { check := Except.ok { status_code := 200, body := Json.obj [] }
    del := Except.ok { status_code := 403, body := Json.obj [("message", Json.str "Must have admin rights")] } }

/-- Sample delete world: existence check passes and the DELETE answers 204. -/
def delOkEnv : DelEnv :=
  { check := Except.ok { status_code := 200, body := Json.obj [] }
    del := Except.ok { status_code := 204, body := Json.null } }

/-- Sample subprocess world: every command completes with stdout "hello". -/
def echoRunner : String → Except String CmdOutcome :=
  fun _ => Except.ok { stdout := "hello", stderr := "" }

/-- The non-recursive body of _push_single_file after a successful read,
with the let bindings of the source spelled out; holds by definition. -/
theorem pushSingleFile_ok_eq
    (http : HttpEnv) (owner repo content github_path commit_message branch : String) :
    pushSingleFile http owner repo (Except.ok content) github_path commit_message branch
      = (if raisesForStatus (http.put (contentsUrl owner repo (normalizeGithubPath github_path))
             (pushPayloadFor http owner repo content github_path commit_message branch)).status_code then
           PushResult.error (normalizeGithubPath github_path)
             (httpStatusErrorText
               (http.put (contentsUrl owner repo (normalizeGithubPath github_path))
                 (pushPayloadFor http owner repo content github_path commit_message branch)).status_code
               (contentsUrl owner repo (normalizeGithubPath github_path)))
             (some (http.put (contentsUrl owner repo (normalizeGithubPath github_path))
                 (pushPayloadFor http owner repo content github_path commit_message branch)).body)
         else
           match htmlUrlOf (http.put (contentsUrl owner repo (normalizeGithubPath github_path))
               (pushPayloadFor http owner repo content github_path commit_message branch)).body with
           | some u => PushResult.success (normalizeGithubPath github_path) u
           | none => PushResult.error (normalizeGithubPath github_path) keyErrorText
               (some (http.put (contentsUrl owner repo (normalizeGithubPath github_path))
                   (pushPayloadFor http owner repo content github_path commit_message branch)).body)) :=
  rfl

/-- Whenever the local read succeeds, the path recorded in the Push Result
is the normalized github_path, in every branch. -/
theorem pushSingleFile_ok_path
    (http : HttpEnv) (owner repo content github_path commit_message branch : String) :
    (pushSingleFile http owner repo (Except.ok content) github_path commit_message branch).pathOf
      = normalizeGithubPath github_path := by
  rw [pushSingleFile_ok_eq]
  split
  · rfl
  · split <;> rfl

/-- Every Push Result carries status "success" or status "error". -/
theorem statusStr_success_or_error (r : PushResult) :
    r.statusStr = "success" ∨ r.statusStr = "error" := by
  cases r <;> simp [PushResult.statusStr]

/-- The success records and the error records of a list of Push Results
partition it. -/
theorem countP_status_partition (l : List PushResult) :
    l.countP (fun r => r.statusStr == "success") + l.countP (fun r => r.statusStr == "error")
      = l.length := by
  induction l with
  | nil => rfl
  | cons r rest ih =>
    rcases statusStr_success_or_error r with h | h <;>
      simp [List.countP_cons, h] <;> omega

/-- success_count plus error_count of a report is the number of results. -/
theorem mkReport_counts (l : List PushResult) :
    (mkReport l).success_count + (mkReport l).error_count = l.length := by
  simpa [mkReport] using countP_status_partition l

/-- The walk of a listing finds exactly its regular files. -/
theorem walkEntries_length (l : List (String × FSTree)) :
    (filesOf l ++ dirsWalk l).length = fileCountEntries l := by
  induction l using dirsWalk.induct with
  | case1 => simp [filesOf, dirsWalk, fileCountEntries]
  | case2 n rd rest ih => simp [filesOf, dirsWalk, fileCountEntries] at *; omega
  | case3 n es rest ih1 ih2 => simp [filesOf, dirsWalk, fileCountEntries] at *; omega

/-- The walk of a directory node finds exactly its regular files, at any
depth (os.walk is only ever applied to directories in the source). -/
theorem walk_dir_length (es : List (String × FSTree)) :
    (FSTree.dir es).walk.length = (FSTree.dir es).fileCount :=
  walkEntries_length es

/-- C1: in the per-file helper, a non-200 contents lookup makes the PUT
payload omit the sha field (create path); a 200 lookup whose body carries a
non-empty sha hash makes the payload include that hash (update path), for
every file published. -/
theorem pushPayload_sha_create_or_update
    (http : HttpEnv) (owner repo content github_path commit_message branch : String) :
    ((http.get (contentsUrl owner repo (normalizeGithubPath github_path))).status_code ≠ 200 →
      (pushPayloadFor http owner repo content github_path commit_message branch).sha = none)
    ∧ (∀ h : String, h ≠ "" →
        (http.get (contentsUrl owner repo (normalizeGithubPath github_path))).status_code = 200 →
        (http.get (contentsUrl owner repo (normalizeGithubPath github_path))).body.get "sha"
          = some (Json.str h) →
        (pushPayloadFor http owner repo content github_path commit_message branch).sha
          = some (Json.str h)) := by
  constructor
  · intro hne
    simp [pushPayloadFor, mkPayload, shaLookup, hne]
  · intro h hne h200 hsha
    simp [pushPayloadFor, mkPayload, shaLookup, h200, hsha, Json.pyTruthy, hne]

/-- C1 witness: a 404 lookup yields a payload without sha; a 200 lookup
with hash "oldsha" yields a payload carrying it. -/
theorem pushPayload_sha_create_or_update_witness :
    ((httpAbsentEnv.get (contentsUrl "o" "r" (normalizeGithubPath "a.txt"))).status_code ≠ 200
      ∧ (pushPayloadFor httpAbsentEnv "o" "r" "hi" "a.txt" "m" "main").sha = none)
    ∧ (("oldsha" : String) ≠ ""
      ∧ (httpShaEnv.get (contentsUrl "o" "r" (normalizeGithubPath "a.txt"))).status_code = 200
      ∧ (httpShaEnv.get (contentsUrl "o" "r" (normalizeGithubPath "a.txt"))).body.get "sha"
          = some (Json.str "oldsha")
      ∧ (pushPayloadFor httpShaEnv "o" "r" "hi" "a.txt" "m" "main").sha
          = some (Json.str "oldsha")) :=
  ⟨⟨by decide,
    (pushPayload_sha_create_or_update httpAbsentEnv "o" "r" "hi" "a.txt" "m" "main").1 (by decide)⟩,
   ⟨by decide, rfl, rfl,
    (pushPayload_sha_create_or_update httpShaEnv "o" "r" "hi" "a.txt" "m" "main").2 "oldsha"
      (by decide) rfl rfl⟩⟩

/-- C9: a 200 contents lookup whose body carries no truthy sha value (the
field absent, null, or the empty string) still omits the sha field of the
PUT payload: the inclusion condition is truthiness, not the 200 status. -/
theorem pushPayload_sha_falsy_omitted
    (http : HttpEnv) (owner repo content github_path commit_message branch : String)
    (h200 : (http.get (contentsUrl owner repo (normalizeGithubPath github_path))).status_code = 200)
    (hsha : (http.get (contentsUrl owner repo (normalizeGithubPath github_path))).body.get "sha" = none
      ∨ (http.get (contentsUrl owner repo (normalizeGithubPath github_path))).body.get "sha"
          = some Json.null
      ∨ (http.get (contentsUrl owner repo (normalizeGithubPath github_path))).body.get "sha"
          = some (Json.str "")) :
    (pushPayloadFor http owner repo content github_path commit_message branch).sha = none := by
  rcases hsha with h | h | h <;>
    simp [pushPayloadFor, mkPayload, shaLookup, h200, h, Json.pyTruthy]

/-- C9 witness: a 200 lookup with an empty sha value omits the field. -/
theorem pushPayload_sha_falsy_omitted_witness :
    (httpEmptyShaEnv.get (contentsUrl "o" "r" (normalizeGithubPath "a.txt"))).status_code = 200
    ∧ (httpEmptyShaEnv.get (contentsUrl "o" "r" (normalizeGithubPath "a.txt"))).body.get "sha"
        = some (Json.str "")
    ∧ (pushPayloadFor httpEmptyShaEnv "o" "r" "hi" "a.txt" "m" "main").sha = none :=
  ⟨rfl, rfl,
   pushPayload_sha_falsy_omitted httpEmptyShaEnv "o" "r" "hi" "a.txt" "m" "main" rfl
     (Or.inr (Or.inr rfl))⟩

/-- C4: a project_path whose resolved path does not exist returns the
single top-level error object "Path not found: abs path" and never a Push
Report. -/
theorem push_missing_path_error
    (env : PushEnv) (owner repo project_path commit_message branch : String)
    (h : env.node = none) :
    github_push_file env owner repo project_path commit_message branch
      = PushOut.errorObj ("Path not found: " ++ (env.projectRoot ++ env.sep ++ project_path))
    ∧ ∀ rep, github_push_file env owner repo project_path commit_message branch
        ≠ PushOut.report rep := by
  have h1 : github_push_file env owner repo project_path commit_message branch
      = PushOut.errorObj ("Path not found: " ++ (env.projectRoot ++ env.sep ++ project_path)) := by
    simp [github_push_file, h]
  refine ⟨h1, fun rep hr => ?_⟩
  rw [h1] at hr
  exact PushOut.noConfusion hr

/-- C4 witness: the sample missing path yields the error object. -/
theorem push_missing_path_error_witness :
    missingPushEnv.node = none
    ∧ github_push_file missingPushEnv "o" "r" "proj" "m" "main"
        = PushOut.errorObj ("Path not found: " ++ ("C:\\root" ++ "\\" ++ "proj")) :=
  ⟨rfl, (push_missing_path_error missingPushEnv "o" "r" "proj" "m" "main" rfl).1⟩

/-- C5: an existing single regular file produces exactly one Push Result:
details has length 1, success_count + error_count = 1, and whenever the
read succeeds the remote path recorded (and used in the contents URL) is
project_path with separators normalized. -/
theorem push_single_file_report
    (env : PushEnv) (owner repo project_path commit_message branch : String)
    (rd : Except String String) (h : env.node = some (FSTree.file rd)) :
    ∃ rep, github_push_file env owner repo project_path commit_message branch = PushOut.report rep
      ∧ rep.details = [pushSingleFile env.http owner repo rd project_path commit_message branch]
      ∧ rep.details.length = 1
      ∧ rep.success_count + rep.error_count = 1
      ∧ (∀ content, rd = Except.ok content →
          (pushSingleFile env.http owner repo rd project_path commit_message branch).pathOf
            = normalizeGithubPath project_path) := by
  refine ⟨mkReport [pushSingleFile env.http owner repo rd project_path commit_message branch],
    ?_, rfl, rfl, ?_, ?_⟩
  · simp [github_push_file, h]
  · simpa using
      mkReport_counts [pushSingleFile env.http owner repo rd project_path commit_message branch]
  · intro content hc
    subst hc
    exact pushSingleFile_ok_path env.http owner repo content project_path commit_message branch

/-- C5 witness: the sample single file yields a one-entry report. -/
theorem push_single_file_report_witness :
    filePushEnv.node = some (FSTree.file (Except.ok "hi"))
    ∧ ∃ rep, github_push_file filePushEnv "o" "r" "proj\\a.txt" "m" "main" = PushOut.report rep
        ∧ rep.details.length = 1
        ∧ rep.success_count + rep.error_count = 1 := by
  refine ⟨rfl, ?_⟩
  obtain ⟨rep, h1, _, h3, h4, _⟩ :=
    push_single_file_report filePushEnv "o" "r" "proj\\a.txt" "m" "main" (Except.ok "hi") rfl
  exact ⟨rep, h1, h3, h4⟩

/-- C2: an existing directory with N regular files at any nesting depth
yields a Push Report whose details are the per-file results in discovery
order, have length exactly N, and whose success and error counts add up
to N. -/
theorem push_dir_report_counts
    (env : PushEnv) (owner repo project_path commit_message branch : String)
    (es : List (String × FSTree)) (h : env.node = some (FSTree.dir es)) :
    ∃ rep, github_push_file env owner repo project_path commit_message branch = PushOut.report rep
      ∧ rep.details = (FSTree.dir es).walk.map (fun pr =>
          pushSingleFile env.http owner repo pr.2
            (joinedPath env.sep (project_path :: pr.1)) commit_message branch)
      ∧ rep.details.length = (FSTree.dir es).fileCount
      ∧ rep.success_count + rep.error_count = (FSTree.dir es).fileCount := by
  have hmain : github_push_file env owner repo project_path commit_message branch
      = PushOut.report (mkReport ((FSTree.dir es).walk.map (fun pr =>
          pushSingleFile env.http owner repo pr.2
            (joinedPath env.sep (project_path :: pr.1)) commit_message branch))) := by
    simp [github_push_file, h]
  refine ⟨_, hmain, rfl, ?_, ?_⟩
  · show ((FSTree.dir es).walk.map _).length = _
    rw [List.length_map, walk_dir_length]
  · rw [mkReport_counts, List.length_map, walk_dir_length]

/-- C2 witness: the sample directory holds 3 files at mixed depths and its
report has 3 details entries with matching counts. -/
theorem push_dir_report_counts_witness :
    dirPushEnv.node = some (FSTree.dir sampleEntries)
    ∧ ∃ rep, github_push_file dirPushEnv "o" "r" "proj" "m" "main" = PushOut.report rep
        ∧ rep.details.length = 3
        ∧ rep.success_count + rep.error_count = 3 := by
  refine ⟨rfl, ?_⟩
  obtain ⟨rep, h1, _, h3, h4⟩ :=
    push_dir_report_counts dirPushEnv "o" "r" "proj" "m" "main" sampleEntries rfl
  have hc : (FSTree.dir sampleEntries).fileCount = 3 := by
    simp [FSTree.fileCount, sampleEntries, fileCountEntries]
  exact ⟨rep, h1, by rw [h3, hc], by rw [h4, hc]⟩

/-- C3: during a directory push, a file whose read raises yields an error
record at its own position only; every other file of the walk still gets
its own, unchanged result - the batch is never aborted. -/
theorem push_dir_partial_failure
    (env : PushEnv) (owner repo project_path commit_message branch : String)
    (es : List (String × FSTree)) (i : Nat)
    (fe : List String × Except String String) (e : String)
    (h : env.node = some (FSTree.dir es))
    (hw : (FSTree.dir es).walk[i]? = some fe)
    (he : fe.2 = Except.error e) :
    ∃ rep, github_push_file env owner repo project_path commit_message branch = PushOut.report rep
      ∧ rep.details.length = (FSTree.dir es).walk.length
      ∧ rep.details[i]? = some (PushResult.error (joinedPath env.sep (project_path :: fe.1)) e none)
      ∧ (∀ j fj, j ≠ i → (FSTree.dir es).walk[j]? = some fj →
          rep.details[j]? = some (pushSingleFile env.http owner repo fj.2
            (joinedPath env.sep (project_path :: fj.1)) commit_message branch)) := by
  have hmain : github_push_file env owner repo project_path commit_message branch
      = PushOut.report (mkReport ((FSTree.dir es).walk.map (fun pr =>
          pushSingleFile env.http owner repo pr.2
            (joinedPath env.sep (project_path :: pr.1)) commit_message branch))) := by
    simp [github_push_file, h]
  refine ⟨_, hmain, ?_, ?_, ?_⟩
  · show ((FSTree.dir es).walk.map _).length = _
    rw [List.length_map]
  · show ((FSTree.dir es).walk.map _)[i]? = _
    rw [List.getElem?_map, hw]
    simp [pushSingleFile, he]
  · intro j fj hne hj
    show ((FSTree.dir es).walk.map _)[j]? = _
    rw [List.getElem?_map, hj]
    rfl

/-- C3 witness: in the sample directory the unreadable sub/b.txt yields an
error record at position 1 while a.txt at position 0 keeps its own result. -/
theorem push_dir_partial_failure_witness :
    dirPushEnv.node = some (FSTree.dir sampleEntries)
    ∧ (FSTree.dir sampleEntries).walk[1]? = some (["sub", "b.txt"], Except.error "boom")
    ∧ ∃ rep, github_push_file dirPushEnv "o" "r" "proj" "m" "main" = PushOut.report rep
        ∧ rep.details[1]? = some (PushResult.error
            (joinedPath "\\" ["proj", "sub", "b.txt"]) "boom" none)
        ∧ rep.details[0]? = some (pushSingleFile httpShaEnv "o" "r" (Except.ok "hello")
            (joinedPath "\\" ["proj", "a.txt"]) "m" "main") := by
  have hw : (FSTree.dir sampleEntries).walk[1]? = some (["sub", "b.txt"], Except.error "boom") := by
    simp [FSTree.walk, sampleEntries, filesOf, dirsWalk]
  have h0 : (FSTree.dir sampleEntries).walk[0]? = some (["a.txt"], Except.ok "hello") := by
    simp [FSTree.walk, sampleEntries, filesOf, dirsWalk]
  refine ⟨rfl, hw, ?_⟩
  obtain ⟨rep, h1, _, h3, h4⟩ :=
    push_dir_partial_failure dirPushEnv "o" "r" "proj" "m" "main" sampleEntries 1
      (["sub", "b.txt"], Except.error "boom") "boom" rfl hw rfl
  exact ⟨rep, h1, h3, h4 0 (["a.txt"], Except.ok "hello") (by decide) h0⟩

/-- C8 amended: for every file whose local read succeeds, the remote path
recorded in its Push Result (the one also used in the contents URL) has
every backslash replaced by a forward slash; the error record of a file
whose read raises keeps the original, unnormalized github_path. -/
theorem push_path_normalized_on_read
    (http : HttpEnv) (owner repo content github_path commit_message branch e : String) :
    (pushSingleFile http owner repo (Except.ok content) github_path commit_message branch).pathOf
      = normalizeGithubPath github_path
    ∧ pushSingleFile http owner repo (Except.error e) github_path commit_message branch
        = PushResult.error github_path e none :=
  ⟨pushSingleFile_ok_path http owner repo content github_path commit_message branch, rfl⟩

/-- C8 counterexample: a file whose read raises while its relative path
contains a backslash gets a Push Result whose recorded remote path still
contains the backslash, so not every Push Result path is normalized. -/
theorem push_path_counterexample :
    pushSingleFile httpShaEnv "o" "r" (Except.error "could not read") "sub\\b.txt" "m" "main"
      = PushResult.error "sub\\b.txt" "could not read" none
    ∧ normalizeGithubPath "sub\\b.txt" = "sub/b.txt"
    ∧ ("sub\\b.txt" : String) ≠ "sub/b.txt"
    ∧ (pushSingleFile httpShaEnv "o" "r" (Except.error "could not read")
        "sub\\b.txt" "m" "main").pathOf ≠ normalizeGithubPath "sub\\b.txt" :=
  ⟨rfl, by decide, by decide, by decide⟩

/-- C10: every error record of the per-file helper carries the error text
and a details field; details is the parsed JSON body of the PUT response
when the failure occurred at or after the PUT (the local read succeeded),
and null when the failure occurred before the PUT was issued (the local
read raised). -/
theorem push_error_details_shape
    (http : HttpEnv) (owner repo : String) (rd : Except String String)
    (github_path commit_message branch : String) :
    (∀ e, rd = Except.error e →
        pushSingleFile http owner repo rd github_path commit_message branch
          = PushResult.error github_path e none)
    ∧ (∀ content p err d, rd = Except.ok content →
        pushSingleFile http owner repo rd github_path commit_message branch
          = PushResult.error p err d →
        d = some (http.put (contentsUrl owner repo (normalizeGithubPath github_path))
              (pushPayloadFor http owner repo content github_path commit_message branch)).body) := by
  constructor
  · intro e he
    subst he
    rfl
  · intro content p err d hc hr
    subst hc
    rw [pushSingleFile_ok_eq] at hr
    split at hr
    · injection hr with h1 h2 h3
      exact h3.symm
    · split at hr
      · exact PushResult.noConfusion hr
      · injection hr with h1 h2 h3
        exact h3.symm

/-- C10 witness: an unreadable file gives details null; a PUT rejected
with 422 gives details equal to the PUT response body. -/
theorem push_error_details_shape_witness :
    ((Except.error "unreadable" : Except String String) = Except.error "unreadable"
      ∧ pushSingleFile httpPutFailEnv "o" "r" (Except.error "unreadable") "f.txt" "m" "main"
          = PushResult.error "f.txt" "unreadable" none)
    ∧ some (Json.obj [("message", Json.str "Invalid request")])
        = some ((httpPutFailEnv.put (contentsUrl "o" "r" (normalizeGithubPath "f.txt"))
            (pushPayloadFor httpPutFailEnv "o" "r" "hi" "f.txt" "m" "main")).body) := by
  constructor
  · exact ⟨rfl, (push_error_details_shape httpPutFailEnv "o" "r" (Except.error "unreadable")
      "f.txt" "m" "main").1 "unreadable" rfl⟩
  · have hr : pushSingleFile httpPutFailEnv "o" "r" (Except.ok "hi") "f.txt" "m" "main"
        = PushResult.error (normalizeGithubPath "f.txt")
            (httpStatusErrorText 422 (contentsUrl "o" "r" (normalizeGithubPath "f.txt")))
            (some (Json.obj [("message", Json.str "Invalid request")])) := rfl
    exact (push_error_details_shape httpPutFailEnv "o" "r" (Except.ok "hi")
      "f.txt" "m" "main").2 "hi" _ _ _ rfl hr

/-- C6: run_command never raises: a completed process returns stdout when
non-empty, else stderr, hence the empty string when both are empty; an
execution failure returns the exception text as the string result. -/
theorem run_command_total_spec
    (runner : String → Except String CmdOutcome) (command : String) :
    (∀ result, runner command = Except.ok result →
        run_command runner command
          = if result.stdout ≠ "" then result.stdout else result.stderr)
    ∧ (∀ result, runner command = Except.ok result → result.stdout = "" → result.stderr = "" →
        run_command runner command = "")
    ∧ (∀ e, runner command = Except.error e → run_command runner command = e) := by
  refine ⟨?_, ?_, ?_⟩
  · intro result hr
    simp [run_command, hr]
  · intro result hr h1 h2
    simp [run_command, hr, h1, h2]
  · intro e hr
    simp [run_command, hr]

/-- C6 witness: a command with stdout "hello" returns "hello". -/
theorem run_command_total_spec_witness :
    echoRunner "echo hello" = Except.ok { stdout := "hello", stderr := "" }
    ∧ run_command echoRunner "echo hello" = "hello" := by
  refine ⟨rfl, ?_⟩
  have h := (run_command_total_spec echoRunner "echo hello").1
    { stdout := "hello", stderr := "" } rfl
  rw [h]
  decide

/-- C7 amended: github_delete_repository never raises; HTTP 204 from the
DELETE returns the success object; an HTTP error status on the existence
check returns the structured object with error, message and
documentation_url; a non-204 DELETE response returns the object with error
"Failed to delete repository (HTTP n)" and the delete body as details; a
transport exception of either request returns the Unexpected error
object. -/
theorem delete_repository_cases (env : DelEnv) (owner repo : String) :
    (∀ res, env.check = Except.ok res → raisesForStatus res.status_code = true →
        github_delete_repository env owner repo
          = DeleteResult.httpError ("HTTP Error " ++ toString res.status_code)
              (res.body.get "message") (res.body.get "documentation_url"))
    ∧ (∀ res dres, env.check = Except.ok res → raisesForStatus res.status_code = false →
        env.del = Except.ok dres → dres.status_code = 204 →
        github_delete_repository env owner repo
          = DeleteResult.success "success"
              ("Repository " ++ owner ++ "/" ++ repo ++ " deleted successfully"))
    ∧ (∀ res dres, env.check = Except.ok res → raisesForStatus res.status_code = false →
        env.del = Except.ok dres → dres.status_code ≠ 204 →
        github_delete_repository env owner repo
          = DeleteResult.deleteFailed
              ("Failed to delete repository (HTTP " ++ toString dres.status_code ++ ")")
              dres.body)
    ∧ (∀ e, env.check = Except.error e →
        github_delete_repository env owner repo = DeleteResult.unexpected "Unexpected error" e)
    ∧ (∀ res e, env.check = Except.ok res → raisesForStatus res.status_code = false →
        env.del = Except.error e →
        github_delete_repository env owner repo
          = DeleteResult.unexpected "Unexpected error" e) := by
  refine ⟨?_, ?_, ?_, ?_, ?_⟩
  · intro res hcheck hstat
    simp [github_delete_repository, hcheck, hstat]
  · intro res dres hcheck hstat hdel h204
    simp [github_delete_repository, hcheck, hstat, hdel, h204]
  · intro res dres hcheck hstat hdel h204
    simp [github_delete_repository, hcheck, hstat, hdel, h204]
  · intro e hcheck
    simp [github_delete_repository, hcheck]
  · intro res e hcheck hstat hdel
    simp [github_delete_repository, hcheck, hstat, hdel]

/-- C7 counterexample: with the repository existing (check 200) and the
DELETE answering 403, the result is the error-details object of source
lines 206-209, which has no message or documentation_url field - the claim
that an HTTP error during the delete yields the structured
error/message/documentation_url object fails. -/
theorem delete_repository_counterexample :
    github_delete_repository delFailEnv "alice" "demo"
      = DeleteResult.deleteFailed ("Failed to delete repository (HTTP " ++ toString 403 ++ ")")
          (Json.obj [("message", Json.str "Must have admin rights")])
    ∧ ("Failed to delete repository (HTTP " ++ toString 403 ++ ")"
        = "Failed to delete repository (HTTP 403)")
    ∧ (match github_delete_repository delFailEnv "alice" "demo" with
       | DeleteResult.httpError _ _ _ => False
       | _ => True) :=
  ⟨rfl, by decide, by trivial⟩

/-- C7 witness: a 204 DELETE yields the success object; a 403 DELETE
yields the error-details object. -/
theorem delete_repository_cases_witness :
    (delOkEnv.check = Except.ok { status_code := 200, body := Json.obj [] }
      ∧ raisesForStatus 200 = false
      ∧ delOkEnv.del = Except.ok { status_code := 204, body := Json.null }
      ∧ github_delete_repository delOkEnv "alice" "demo"
          = DeleteResult.success "success"
              ("Repository " ++ "alice" ++ "/" ++ "demo" ++ " deleted successfully"))
    ∧ (delFailEnv.del = Except.ok
          { status_code := 403, body := Json.obj [("message", Json.str "Must have admin rights")] }
      ∧ (403 : Nat) ≠ 204
      ∧ github_delete_repository delFailEnv "alice" "demo"
          = DeleteResult.deleteFailed
              ("Failed to delete repository (HTTP " ++ toString 403 ++ ")")
              (Json.obj [("message", Json.str "Must have admin rights")])) := by
  constructor
  · refine ⟨rfl, by decide, rfl, ?_⟩
    exact (delete_repository_cases delOkEnv "alice" "demo").2.1
      { status_code := 200, body := Json.obj [] } { status_code := 204, body := Json.null }
      rfl (by decide) rfl rfl
  · refine ⟨rfl, by decide, ?_⟩
    exact (delete_repository_cases delFailEnv "alice" "demo").2.2.1
      { status_code := 200, body := Json.obj [] }
      { status_code := 403, body := Json.obj [("message", Json.str "Must have admin rights")] }
      rfl (by decide) rfl (by decide)
